import Mathlib

/-!
Verification of the item-quality update rule engine from the refactoring
kata repository: the smelly implementation in
src/samples/1-simple/a-single-function-predicate-complexity.ts and the
refactored implementation in src/samples/1-simple/refactored-predicates.ts.

Both TypeScript files mutate an in-place record with fields name, sellIn
and quality; here each implementation is embedded as a pure function from
Item to Item that threads the mutated record through the same sequence of
conditional assignments, each condition re-reading the record as mutated
by the previous assignments, exactly as the imperative code does.
-/

structure Item where
  name : String
  sellIn : Int
  quality : Int
  deriving DecidableEq, Repr

namespace Refactored

def isAgedBrie (item : Item) : Bool :=
  item.name == "Aged Brie"

def isBackstagePass (item : Item) : Bool :=
  item.name == "Backstage passes to a TAFKAL80ETC concert"

def isSulfuras (item : Item) : Bool :=
  item.name == "Sulfuras, Hand of Ragnaros"

def isSpecialItem (item : Item) : Bool :=
  isAgedBrie item || isBackstagePass item || isSulfuras item

def hasQualityToDecrease (item : Item) : Bool :=
  decide (item.quality > 0)

def hasQualityToIncrease (item : Item) : Bool :=
  decide (item.quality < 50)

def hasExpired (item : Item) : Bool :=
  decide (item.sellIn < 0)

def shouldDecreaseQuality (item : Item) : Bool :=
  !isSpecialItem item && hasQualityToDecrease item

def shouldIncreaseQuality (item : Item) : Bool :=
  (isAgedBrie item || isBackstagePass item) && hasQualityToIncrease item

def shouldIncreaseQualityMoreRapidly (item : Item) : Bool :=
  isBackstagePass item && (hasExpired item == false) && hasQualityToIncrease item

def shouldLoseAllQualityAfterEvent (item : Item) : Bool :=
  isBackstagePass item && hasExpired item

def updateItemQuality (item : Item) : Item :=
  let item1 := if shouldDecreaseQuality item then
    { item with quality := item.quality - 1 } else item
  let item2 := if shouldIncreaseQuality item1 then
    { item1 with quality := item1.quality + 1 } else item1
  let item3 := if shouldIncreaseQualityMoreRapidly item2 then
    { item2 with quality := item2.quality + 1 } else item2
  let item4 := if shouldLoseAllQualityAfterEvent item3 then
    { item3 with quality := 0 } else item3
  item4

end Refactored

namespace Smelly

def updateItemQuality (item : Item) : Item :=
  let item1 :=
    if (item.name != "Aged Brie" && item.name != "Backstage passes to a TAFKAL80ETC concert"
          && decide (item.quality > 0) && (item.name != "Sulfuras, Hand of Ragnaros"))
        || (decide (item.sellIn < 0) && item.name != "Aged Brie"
          && item.name != "Backstage passes to a TAFKAL80ETC concert"
          && decide (item.quality > 0)) then
      { item with quality := item.quality - 1 } else item
  let item2 :=
    if (item1.name == "Aged Brie" || item1.name == "Backstage passes to a TAFKAL80ETC concert")
        && decide (item1.quality < 50)
        && (decide (item1.sellIn > 0)
          || item1.name == "Backstage passes to a TAFKAL80ETC concert") then
      { item1 with quality := item1.quality + 1 } else item1
  let item3 :=
    if item2.name == "Backstage passes to a TAFKAL80ETC concert"
        && decide (item2.sellIn < 0) && decide (item2.quality > 0) then
      { item2 with quality := 0 } else item2
  item3

end Smelly

namespace Refactored

lemma brie_quality (s q : Int) :
    (updateItemQuality ⟨"Aged Brie", s, q⟩).quality = if q < 50 then q + 1 else q := by
  simp only [updateItemQuality, shouldDecreaseQuality, shouldIncreaseQuality,
    shouldIncreaseQualityMoreRapidly, shouldLoseAllQualityAfterEvent, isSpecialItem,
    isAgedBrie, isBackstagePass, isSulfuras, hasQualityToDecrease, hasQualityToIncrease,
    hasExpired]
  split_ifs <;> simp_all

lemma pass_quality (s q : Int) :
    (updateItemQuality ⟨"Backstage passes to a TAFKAL80ETC concert", s, q⟩).quality =
      if s < 0 then 0
      else if q + 1 < 50 then q + 2
      else if q < 50 then q + 1
      else q := by
  simp only [updateItemQuality, shouldDecreaseQuality, shouldIncreaseQuality,
    shouldIncreaseQualityMoreRapidly, shouldLoseAllQualityAfterEvent, isSpecialItem,
    isAgedBrie, isBackstagePass, isSulfuras, hasQualityToDecrease, hasQualityToIncrease,
    hasExpired]
  split_ifs <;> simp_all <;> omega

lemma sulfuras_quality (s q : Int) :
    (updateItemQuality ⟨"Sulfuras, Hand of Ragnaros", s, q⟩).quality = q := by
  simp only [updateItemQuality, shouldDecreaseQuality, shouldIncreaseQuality,
    shouldIncreaseQualityMoreRapidly, shouldLoseAllQualityAfterEvent, isSpecialItem,
    isAgedBrie, isBackstagePass, isSulfuras, hasQualityToDecrease, hasQualityToIncrease,
    hasExpired]
  split_ifs <;> simp_all

lemma generic_quality (n : String) (s q : Int)
    (hb : n ≠ "Aged Brie")
    (hp : n ≠ "Backstage passes to a TAFKAL80ETC concert")
    (hs : n ≠ "Sulfuras, Hand of Ragnaros") :
    (updateItemQuality ⟨n, s, q⟩).quality = if 0 < q then q - 1 else q := by
  simp only [updateItemQuality, shouldDecreaseQuality, shouldIncreaseQuality,
    shouldIncreaseQualityMoreRapidly, shouldLoseAllQualityAfterEvent, isSpecialItem,
    isAgedBrie, isBackstagePass, isSulfuras, hasQualityToDecrease, hasQualityToIncrease,
    hasExpired]
  split_ifs <;> simp_all

lemma name_sellIn_preserved (item : Item) :
    (updateItemQuality item).name = item.name ∧
      (updateItemQuality item).sellIn = item.sellIn := by
  simp only [updateItemQuality]
  split_ifs <;> simp

end Refactored

namespace Smelly

lemma smelly_sulfuras_quality (s q : Int) :
    (updateItemQuality ⟨"Sulfuras, Hand of Ragnaros", s, q⟩).quality =
      if s < 0 ∧ 0 < q then q - 1 else q := by
  simp only [updateItemQuality]
  split_ifs <;> simp_all

lemma smelly_generic_quality (n : String) (s q : Int)
    (hb : n ≠ "Aged Brie")
    (hp : n ≠ "Backstage passes to a TAFKAL80ETC concert")
    (hs : n ≠ "Sulfuras, Hand of Ragnaros") :
    (updateItemQuality ⟨n, s, q⟩).quality = if 0 < q then q - 1 else q := by
  simp only [updateItemQuality]
  split_ifs <;> simp_all

lemma smelly_name_sellIn_preserved (item : Item) :
    (updateItemQuality item).name = item.name ∧
      (updateItemQuality item).sellIn = item.sellIn := by
  simp only [updateItemQuality]
  split_ifs <;> simp

end Smelly

/-- Claim C1: for every item whose quality is in [0,50] on entry, one call of
the refactored updateItemQuality leaves quality in [0,50]: the decrease rule
never takes quality below 0 and the increase and accelerate rules never take
it above 50. -/
theorem quality_range_preserved (n : String) (s q : Int)
    (h0 : 0 ≤ q) (h50 : q ≤ 50) :
    0 ≤ (Refactored.updateItemQuality ⟨n, s, q⟩).quality ∧
      (Refactored.updateItemQuality ⟨n, s, q⟩).quality ≤ 50 := by
  by_cases hb : n = "Aged Brie"
  · subst hb
    rw [Refactored.brie_quality]
    split_ifs <;> omega
  · by_cases hp : n = "Backstage passes to a TAFKAL80ETC concert"
    · subst hp
      rw [Refactored.pass_quality]
      split_ifs <;> omega
    · by_cases hsl : n = "Sulfuras, Hand of Ragnaros"
      · subst hsl
        rw [Refactored.sulfuras_quality]
        omega
      · rw [Refactored.generic_quality n s q hb hp hsl]
        split_ifs <;> omega

/-- Witness for C1 at the concrete item (Normal Item, 5, 0). -/
theorem quality_range_preserved_witness :
    0 ≤ (Refactored.updateItemQuality ⟨"Normal Item", 5, 0⟩).quality ∧
      (Refactored.updateItemQuality ⟨"Normal Item", 5, 0⟩).quality ≤ 50 :=
  quality_range_preserved "Normal Item" 5 0 (by decide) (by decide)

/-- Claim C2: a Backstage-pass item with sellIn at least 0 (sellIn exactly 0
included) and quality at most 48 gains exactly 2 quality in one call of the
refactored updateItemQuality; with quality 49 the result is exactly 50. -/
theorem pass_unexpired_gains_two (s q : Int) (hs : 0 ≤ s) :
    (q ≤ 48 →
      (Refactored.updateItemQuality
        ⟨"Backstage passes to a TAFKAL80ETC concert", s, q⟩).quality = q + 2) ∧
    (q = 49 →
      (Refactored.updateItemQuality
        ⟨"Backstage passes to a TAFKAL80ETC concert", s, q⟩).quality = 50) := by
  rw [Refactored.pass_quality]
  constructor <;> intro h <;> split_ifs <;> omega

/-- Witness for C2 at the concrete item (pass, 0, 10). -/
theorem pass_unexpired_gains_two_witness :
    (Refactored.updateItemQuality
      ⟨"Backstage passes to a TAFKAL80ETC concert", 0, 10⟩).quality = 10 + 2 :=
  (pass_unexpired_gains_two 0 10 (by decide)).1 (by decide)

/-- Claim C3: a Backstage-pass item with sellIn < 0 and quality in [0,50] has
quality exactly 0 after one call of the refactored updateItemQuality. -/
theorem pass_expired_collapses (s q : Int)
    (hs : s < 0) (h0 : 0 ≤ q) (h50 : q ≤ 50) :
    (Refactored.updateItemQuality
      ⟨"Backstage passes to a TAFKAL80ETC concert", s, q⟩).quality = 0 := by
  rw [Refactored.pass_quality]
  split_ifs <;> omega

/-- Witness for C3 at the concrete item (pass, -1, 30). -/
theorem pass_expired_collapses_witness :
    (Refactored.updateItemQuality
      ⟨"Backstage passes to a TAFKAL80ETC concert", -1, 30⟩).quality = 0 :=
  pass_expired_collapses (-1) 30 (by decide) (by decide) (by decide)

/-- Claim C4: an Aged Brie item, for every sellIn, gains exactly 1 quality in
one call of the refactored updateItemQuality when quality < 50, and stays at
50 when quality = 50. -/
theorem brie_gains_one (s q : Int) :
    (q < 50 →
      (Refactored.updateItemQuality ⟨"Aged Brie", s, q⟩).quality = q + 1) ∧
    (q = 50 →
      (Refactored.updateItemQuality ⟨"Aged Brie", s, q⟩).quality = 50) := by
  rw [Refactored.brie_quality]
  constructor <;> intro h <;> split_ifs <;> omega

/-- Witness for C4 at the concrete item (Aged Brie, 2, 0). -/
theorem brie_gains_one_witness :
    (Refactored.updateItemQuality ⟨"Aged Brie", 2, 0⟩).quality = 0 + 1 :=
  (brie_gains_one 2 0).1 (by decide)

/-- Claim C5: a generic item (name none of the three special names), for every
sellIn, loses exactly 1 quality in one call of the refactored
updateItemQuality when quality > 0, and stays at 0 when quality = 0. -/
theorem generic_loses_one (n : String) (s q : Int)
    (hb : n ≠ "Aged Brie")
    (hp : n ≠ "Backstage passes to a TAFKAL80ETC concert")
    (hsl : n ≠ "Sulfuras, Hand of Ragnaros") :
    (0 < q →
      (Refactored.updateItemQuality ⟨n, s, q⟩).quality = q - 1) ∧
    (q = 0 →
      (Refactored.updateItemQuality ⟨n, s, q⟩).quality = 0) := by
  rw [Refactored.generic_quality n s q hb hp hsl]
  constructor <;> intro h <;> split_ifs <;> omega

/-- Witness for C5 at the concrete item (Normal Item, 5, 0). -/
theorem generic_loses_one_witness :
    (Refactored.updateItemQuality ⟨"Normal Item", 5, 0⟩).quality = 0 :=
  (generic_loses_one "Normal Item" 5 0 (by decide) (by decide) (by decide)).2 rfl

/-- Counterexample for C6: the smelly updateItemQuality changes the quality of
a Sulfuras item with sellIn -5 and quality 80, so quality is not left
unchanged in both implementations. -/
theorem sulfuras_smelly_changes :
    (Smelly.updateItemQuality ⟨"Sulfuras, Hand of Ragnaros", -5, 80⟩).quality ≠ 80 := by
  decide

/-- Claim C6 (amended): the refactored updateItemQuality leaves the quality of
a Sulfuras item unchanged for every sellIn and quality, while the smelly
version decrements it exactly when sellIn < 0 and quality > 0 and leaves it
unchanged otherwise. -/
theorem sulfuras_immutable_refactored_only (s q : Int) :
    (Refactored.updateItemQuality ⟨"Sulfuras, Hand of Ragnaros", s, q⟩).quality = q ∧
      (Smelly.updateItemQuality ⟨"Sulfuras, Hand of Ragnaros", s, q⟩).quality =
        (if s < 0 ∧ 0 < q then q - 1 else q) :=
  ⟨Refactored.sulfuras_quality s q, Smelly.smelly_sulfuras_quality s q⟩

/-- Counterexample for C7: on the Backstage pass with sellIn 5 and quality 10
the two implementations produce different final qualities (12 versus 11), so
they are not extensionally equal. -/
theorem implementations_differ_on_pass :
    (Refactored.updateItemQuality
        ⟨"Backstage passes to a TAFKAL80ETC concert", 5, 10⟩).quality ≠
      (Smelly.updateItemQuality
        ⟨"Backstage passes to a TAFKAL80ETC concert", 5, 10⟩).quality := by
  decide

/-- Claim C7 (amended): the two updateItemQuality implementations agree on
every generic item (name none of the three special names), for every sellIn
and quality; they differ on special items such as an unexpired pass. -/
theorem implementations_agree_on_generic (n : String) (s q : Int)
    (hb : n ≠ "Aged Brie")
    (hp : n ≠ "Backstage passes to a TAFKAL80ETC concert")
    (hsl : n ≠ "Sulfuras, Hand of Ragnaros") :
    (Refactored.updateItemQuality ⟨n, s, q⟩).quality =
      (Smelly.updateItemQuality ⟨n, s, q⟩).quality := by
  rw [Refactored.generic_quality n s q hb hp hsl,
    Smelly.smelly_generic_quality n s q hb hp hsl]

/-- Witness for the amended C7 at the concrete item (Normal Item, 5, 10). -/
theorem implementations_agree_on_generic_witness :
    (Refactored.updateItemQuality ⟨"Normal Item", 5, 10⟩).quality =
      (Smelly.updateItemQuality ⟨"Normal Item", 5, 10⟩).quality :=
  implementations_agree_on_generic "Normal Item" 5 10 (by decide) (by decide) (by decide)

/-- Claim C8: one call of updateItemQuality leaves name and sellIn unchanged
in both the smelly and the refactored implementation; only quality is ever
written. -/
theorem only_quality_is_written (item : Item) :
    (Refactored.updateItemQuality item).name = item.name ∧
      (Refactored.updateItemQuality item).sellIn = item.sellIn ∧
      (Smelly.updateItemQuality item).name = item.name ∧
      (Smelly.updateItemQuality item).sellIn = item.sellIn := by
  obtain ⟨h1, h2⟩ := Refactored.name_sellIn_preserved item
  obtain ⟨h3, h4⟩ := Smelly.smelly_name_sellIn_preserved item
  exact ⟨h1, h2, h3, h4⟩

/-- Counterexample for C9: shouldIncreaseQuality evaluates to true, not false,
on the expired Backstage pass with sellIn -1 and quality 10, so the increase
rule does fire for an expired pass. -/
theorem expired_pass_increase_rule_fires :
    Refactored.shouldIncreaseQuality
      ⟨"Backstage passes to a TAFKAL80ETC concert", -1, 10⟩ = true := by
  decide

/-- Claim C9 (amended): for a Backstage pass with sellIn < 0 the
accelerated-increase predicate shouldIncreaseQualityMoreRapidly is false, but
shouldIncreaseQuality does not check expiry and can still fire; the collapse
rule runs last, so the final quality is 0 regardless. -/
theorem expired_pass_rules_amended (s q : Int) (hs : s < 0) :
    Refactored.shouldIncreaseQualityMoreRapidly
        ⟨"Backstage passes to a TAFKAL80ETC concert", s, q⟩ = false ∧
      (Refactored.updateItemQuality
        ⟨"Backstage passes to a TAFKAL80ETC concert", s, q⟩).quality = 0 := by
  constructor
  · simp [Refactored.shouldIncreaseQualityMoreRapidly, Refactored.hasExpired, hs]
  · rw [Refactored.pass_quality]
    split_ifs <;> omega

/-- Witness for the amended C9 at the concrete item (pass, -1, 10). -/
theorem expired_pass_rules_amended_witness :
    Refactored.shouldIncreaseQualityMoreRapidly
        ⟨"Backstage passes to a TAFKAL80ETC concert", -1, 10⟩ = false ∧
      (Refactored.updateItemQuality
        ⟨"Backstage passes to a TAFKAL80ETC concert", -1, 10⟩).quality = 0 :=
  expired_pass_rules_amended (-1) 10 (by decide)

/-- Claim C10: for every item with quality at least 0 on entry, with no upper
bound assumed, one call of the refactored updateItemQuality yields quality at
least 0. -/
theorem quality_nonneg_preserved (n : String) (s q : Int) (h0 : 0 ≤ q) :
    0 ≤ (Refactored.updateItemQuality ⟨n, s, q⟩).quality := by
  by_cases hb : n = "Aged Brie"
  · subst hb
    rw [Refactored.brie_quality]
    split_ifs <;> omega
  · by_cases hp : n = "Backstage passes to a TAFKAL80ETC concert"
    · subst hp
      rw [Refactored.pass_quality]
      split_ifs <;> omega
    · by_cases hsl : n = "Sulfuras, Hand of Ragnaros"
      · subst hsl
        rw [Refactored.sulfuras_quality]
        omega
      · rw [Refactored.generic_quality n s q hb hp hsl]
        split_ifs <;> omega

/-- Witness for C10 at the concrete item (Normal Item, 0, 60), whose quality
is above 50. -/
theorem quality_nonneg_preserved_witness :
    0 ≤ (Refactored.updateItemQuality ⟨"Normal Item", 0, 60⟩).quality :=
  quality_nonneg_preserved "Normal Item" 0 60 (by decide)
